import Mathlib

/-!
Verification of the scantron scan agent (`agent/agent.py`) against its
natural-language specification.  The Python code is shallowly embedded:
pure helpers become Lean functions, the stateful `scan_site` supervisor
becomes a function from an explicit agent state and an environment
(describing the outside world: files on disk, the spawned process's exit
code, the control plane's HTTP responses) to a new state plus a list of
observable events.  Python exceptions are modelled with an explicit
exception type threaded through the translation: `try`/`except` blocks
become matches on that type.
-/

namespace Scantron

/-- Python exceptions that the agent code can raise or catch.  `keyError`
is raised by a failed dict lookup, `unboundLocal` by referencing a local
variable that was never assigned, `indexError` by an out-of-range list
index, and `urlopenError` stands for the transport and HTTP-status errors
raised by `urllib.request.urlopen`. -/
inductive PyExn
  | keyError
  | unboundLocal
  | indexError
  | urlopenError
deriving Repr, DecidableEq

/-- Outcome of a call to `urllib.request.urlopen`: either the call raises
(transport failure or HTTP error status), or a response with a status
code and a body is delivered. -/
inductive UrlopenOutcome
  | raises
  | response (status : Nat) (body : String)
deriving Repr, DecidableEq

/-- The fields of a scan job dictionary received from the control plane
(`scan_job` in `scan_site`). -/
structure ScanJob where
  id : Nat
  scan_status : String
  site_name : String
  scan_binary : String
  scan_command : String
  result_file_base_name : String
  targets : String
  excluded_targets : String
  scan_binary_process_id : Nat
deriving Repr, DecidableEq

/-- The agent configuration fields consulted by `scan_site`
(`config_data` in the source). -/
structure ConfigData where
  http_useragent : String
  scan_results_dir : String
  target_files_dir : String
  supported_scan_binaries : List String
deriving Repr, DecidableEq

/-- A `subprocess.Popen` handle as far as the agent inspects it: the argv
list the process was started with. -/
structure ProcessHandle where
  args : List String
deriving Repr, DecidableEq

/-- Mutable state of the agent visible to `scan_site`: the
`SCAN_PROCESS_DICT` PID registry and the listings of the three result
directories. -/
structure AgentState where
  scan_process_dict : List (Nat × ProcessHandle)
  pending_files : List String
  complete_files : List String
  cancelled_files : List String
deriving Repr, DecidableEq

/-- The fields a PATCH body may carry (`update_info` dictionaries in the
source); `none` means the field is absent from the dictionary. -/
structure UpdateInfo where
  scan_status : Option String
  scan_binary_process_id : Option Nat
  completed_time : Option String
  result_file_base_name : Option String
deriving Repr, DecidableEq

/-- Observable side effects of a `scan_site` run. -/
inductive Event
  | filewrite (path : String) (content : String)
  | kill (pid : Nat)
  | spawn (command : String) (pid : Nat)
  | patch (scan_job_id : Nat) (update : UpdateInfo)
deriving Repr, DecidableEq

/-- The outside world as observed by one `scan_site` run: the lines of
`paused.conf` when that file exists, the size of the job's `.gnmap` file
when it exists, the PID the spawned process receives, its exit code, the
outcome of each PATCH request, and the current wall-clock string. -/
structure ScanEnv where
  paused_conf : Option (List String)
  gnmap : Option Nat
  spawn_pid : Nat
  returncode : Int
  patch_outcome : UrlopenOutcome
  now : String
deriving Repr, DecidableEq

/-- `os.path.join` for the simple two-component case the agent uses
(first component without a trailing slash). -/
def os_path_join (a b : String) : String := a ++ "/" ++ b

/-! The Python string methods the agent uses (`split`, `startswith`,
`strip`) are re-implemented below by structural recursion on character
lists, so that every definition in this file evaluates by kernel
reduction. -/

/-- Split on whitespace characters, keeping empty pieces (second argument
is the accumulator of the current piece, reversed). -/
def splitWSF : List Char → List Char → List (List Char)
  | [], acc => [acc.reverse]
  | c :: rest, acc =>
    if c.isWhitespace then acc.reverse :: splitWSF rest []
    else splitWSF rest (c :: acc)

/-- Python's `str.split()` with no argument: split on whitespace runs and
drop empty pieces.  Used on the constructed command line before spawn. -/
def pySplit (s : String) : List String :=
  ((splitWSF s.toList []).filter (fun t => !t.isEmpty)).map List.asString

/-- When `sep` is a prefix of the second list, return the remainder. -/
def stripSep : List Char → List Char → Option (List Char)
  | [], s => some s
  | _ :: _, [] => none
  | c :: cs, d :: ds => if c = d then stripSep cs ds else none

/-- Fuelled split on a (non-empty) separator sequence; the accumulator
holds the current piece reversed.  `s.length + 1` fuel always suffices. -/
def splitOnF (sep : List Char) : Nat → List Char → List Char → List (List Char)
  | 0, s, acc => [acc.reverse ++ s]
  | _ + 1, [], acc => [acc.reverse]
  | fuel + 1, c :: rest, acc =>
    match stripSep sep (c :: rest) with
    | some remainder => acc.reverse :: splitOnF sep fuel remainder []
    | none => splitOnF sep fuel rest (c :: acc)

/-- Python's `str.split(sep)` for a non-empty separator string. -/
def pySplitOn (s sep : String) : List String :=
  (splitOnF sep.toList (s.length + 1) s.toList []).map List.asString

/-- Prefix test on character lists (list, then candidate prefix). -/
def startsWithL : List Char → List Char → Bool
  | _, [] => true
  | [], _ :: _ => false
  | c :: cs, d :: ds => (c == d) && startsWithL cs ds

/-- Python's `str.startswith(pre)`. -/
def pyStartsWith (s pre : String) : Bool := startsWithL s.toList pre.toList

/-- Python's `str.strip()`: drop leading and trailing whitespace. -/
def pyStrip (s : String) : String :=
  ((s.toList.dropWhile Char.isWhitespace).reverse.dropWhile
    Char.isWhitespace).reverse.asString

/-! ### fnmatch

`move_wildcard_files` matches names with `fnmatch.fnmatch`, whose pattern
language (on Linux, where `os.path.normcase` is the identity) has `*`,
`?` and bracket classes `[seq]` / `[!seq]`; an unterminated `[` is a
literal.  The matcher below follows `fnmatch.translate`: it is written
with explicit fuel so that it is structurally recursive and computes by
kernel reduction; `patternChars.length + nameChars.length + 1` steps
always suffice because every step shortens pattern or name. -/

/-- Scan a bracket expression for its closing `]`: returns the content
before the `]` and the remainder after it, or `none` when the bracket is
unterminated. -/
def scanClose : List Char → Option (List Char × List Char)
  | [] => none
  | c :: t =>
    if c = ']' then some ([], t)
    else
      match scanClose t with
      | some (body, rest) => some (c :: body, rest)
      | none => none

/-- Interpret the raw content of a bracket expression as ranges, the way
a regex character class does: `a-b` is a range, a `-` at either end is a
literal, a lone character `c` is the range `c-c`. -/
def classItems : List Char → List (Char × Char)
  | [] => []
  | a :: '-' :: b :: rest => (a, b) :: classItems rest
  | a :: rest => (a, a) :: classItems rest

/-- Character membership in an interpreted bracket class. -/
def inClass (items : List (Char × Char)) (c : Char) : Bool :=
  items.any (fun p => decide (p.1 ≤ c) && decide (c ≤ p.2))

/-- Parse a bracket expression (the part after the opening `[`):
complementation by a leading `!`, a `]` in first content position is a
literal.  Returns `none` when there is no closing `]`, in which case the
`[` itself is a literal. -/
def parseBracket (ps : List Char) : Option (Bool × List (Char × Char) × List Char) :=
  let neg : Bool := match ps with | '!' :: _ => true | _ => false
  let ps1 : List Char := match ps with | '!' :: t => t | _ => ps
  match ps1 with
  | ']' :: t =>
    (match scanClose t with
     | some (body, rest) => some (neg, classItems (']' :: body), rest)
     | none => none)
  | _ =>
    match scanClose ps1 with
    | some (body, rest) => some (neg, classItems body, rest)
    | none => none

/-- Fuelled fnmatch pattern matcher over character lists. -/
def globMatchF : Nat → List Char → List Char → Bool
  | 0, _, _ => false
  | _ + 1, [], ns => ns.isEmpty
  | fuel + 1, '*' :: ps, ns =>
    globMatchF fuel ps ns ||
      (match ns with
       | [] => false
       | _ :: t => globMatchF fuel ('*' :: ps) t)
  | fuel + 1, '?' :: ps, ns =>
    (match ns with
     | [] => false
     | _ :: t => globMatchF fuel ps t)
  | fuel + 1, '[' :: ps, ns =>
    (match parseBracket ps with
     | some (neg, items, rest) =>
       (match ns with
        | [] => false
        | c :: t => (neg != inClass items c) && globMatchF fuel rest t)
     | none =>
       (match ns with
        | [] => false
        | c :: t => (c == '[') && globMatchF fuel ps t))
  | fuel + 1, p :: ps, ns =>
    (match ns with
     | [] => false
     | c :: t => (p == c) && globMatchF fuel ps t)

/-- `fnmatch.fnmatch(file_name, wildcard_filename)` on Linux. -/
def fnmatch (file_name wildcard_filename : String) : Bool :=
  globMatchF (wildcard_filename.length + file_name.length + 1)
    wildcard_filename.toList file_name.toList

/-- Modelled from the spec: a matcher that honors exactly the wildcards
`*` and `?` and treats every other character, including brackets, as a
literal.  This is not the code's matcher; it exists only so the spec's
claimed matching semantics can be compared with the `fnmatch` semantics
the code actually uses. -/
def starQuestionF : Nat → List Char → List Char → Bool
  | 0, _, _ => false
  | _ + 1, [], ns => ns.isEmpty
  | fuel + 1, '*' :: ps, ns =>
    starQuestionF fuel ps ns ||
      (match ns with
       | [] => false
       | _ :: t => starQuestionF fuel ('*' :: ps) t)
  | fuel + 1, '?' :: ps, ns =>
    (match ns with
     | [] => false
     | _ :: t => starQuestionF fuel ps t)
  | fuel + 1, p :: ps, ns =>
    (match ns with
     | [] => false
     | c :: t => (p == c) && starQuestionF fuel ps t)

/-- Modelled from the spec: string-level wrapper of `starQuestionF`. -/
def star_question_match (file_name wildcard_filename : String) : Bool :=
  starQuestionF (wildcard_filename.length + file_name.length + 1)
    wildcard_filename.toList file_name.toList

/-- `move_wildcard_files`, recursing over the `os.listdir` snapshot of
the source directory: each name matching the pattern is moved; moving
into the destination overwrites an existing entry of the same name
(`shutil.move` over `os.rename` on one filesystem). -/
def move_wildcard_files_aux (wildcard_filename : String) :
    List String → List String → List String × List String
  | [], dst => ([], dst)
  | f :: rest, dst =>
    if fnmatch f wildcard_filename then
      move_wildcard_files_aux wildcard_filename rest
        (dst.filter (fun g => g != f) ++ [f])
    else
      let r := move_wildcard_files_aux wildcard_filename rest dst
      (f :: r.1, r.2)

/-- `move_wildcard_files(wildcard_filename, source_directory,
destination_directory)`: directories are represented by their listings
(distinct names); returns the listings after the per-file moves. -/
def move_wildcard_files (wildcard_filename : String)
    (source_listing destination_listing : List String) :
    List String × List String :=
  move_wildcard_files_aux wildcard_filename source_listing destination_listing

/-! ### Control-plane client -/

/-- `update_scan_information(scan_job, update_info)`: issues a PATCH via
`urlopen` with no surrounding `try`, so an `urlopen` error propagates to
the caller; a delivered response yields `True` exactly when its status is
200 (any other delivered status logs and yields `False`). -/
def update_scan_information (scan_job : ScanJob) (update_info : UpdateInfo)
    (o : UrlopenOutcome) : Except PyExn Bool :=
  match o with
  | .raises => .error .urlopenError
  | .response status _ => .ok (status == 200)

/-- A PATCH issued from `scan_site`: the `Event.patch` is recorded when
the request is delivered; an `urlopen` error propagates as the second
component.  The returned boolean of `update_scan_information` is ignored
by `scan_site`, exactly as in the source. -/
def do_patch (scan_job : ScanJob) (update_info : UpdateInfo) (o : UrlopenOutcome) :
    List Event × Option PyExn :=
  match update_scan_information scan_job update_info o with
  | .ok _ => ([Event.patch scan_job.id update_info], none)
  | .error e => ([], some e)

/-- An `update_info` dictionary carrying only a `scan_status` field. -/
def statusUpdate (s : String) : UpdateInfo := ⟨some s, none, none, none⟩

/-- The body of `check_for_scan_jobs` inside its `try`: GET the job list,
return the parsed JSON on status 200 (parsing may raise), otherwise log
and return `None`.  The JSON decoding of the body is abstracted as the
`parse` argument; its `.error` case is `json.loads` raising. -/
def check_for_scan_jobs_body (parse : String → Except PyExn (List ScanJob))
    (o : UrlopenOutcome) : Except PyExn (Option (List ScanJob)) :=
  match o with
  | .raises => .error .urlopenError
  | .response code data =>
    if code = 200 then
      match parse data with
      | .ok json_data => .ok (some json_data)
      | .error e => .error e
    else
      .ok none

/-- `check_for_scan_jobs()`: the body wrapped in `except Exception`,
which logs and falls off the end of the function (returning `None`). -/
def check_for_scan_jobs (parse : String → Except PyExn (List ScanJob))
    (o : UrlopenOutcome) : Option (List ScanJob) :=
  match check_for_scan_jobs_body parse o with
  | .ok v => v
  | .error _ => none

/-! ### Config loading -/

/-- How a call to `Agent.load_config` ends: with a parsed configuration,
with `sys.exit(code)`, or with an uncaught exception. -/
inductive LoadConfigResult (α : Type)
  | ok (config : α)
  | sysExit (code : Nat)
  | uncaught (e : PyExn)
deriving Repr, DecidableEq

/-- `Agent.load_config(config_file)`: when the file exists its content is
parsed by `json.loads` (whose raising is the `.error` case of the
`parsed` argument and is not caught anywhere, so it escapes as an
uncaught exception); when the file does not exist the agent logs and
calls `sys.exit(0)`. -/
def load_config {α : Type} (file_exists : Bool) (parsed : Except PyExn α) :
    LoadConfigResult α :=
  if file_exists then
    match parsed with
    | .ok c => .ok c
    | .error e => .uncaught e
  else
    .sysExit 0

/-- The process exit code produced by a `load_config` outcome at startup:
`sys.exit(code)` exits with `code`, an uncaught exception makes the
interpreter exit with 1, and a successful load does not exit. -/
def processExitCode {α : Type} : LoadConfigResult α → Option Nat
  | .ok _ => none
  | .sysExit code => some code
  | .uncaught _ => some 1

/-! ### Command construction and resume detection -/

/-- `build_masscan_command(scan_command, target_file,
excluded_target_file, json_file, http_useragent)`. -/
def build_masscan_command (scan_command target_file : String)
    (excluded_target_file : Option String) (json_file http_useragent : String) :
    String :=
  let file_options :=
    "-iL " ++ target_file ++ " -oJ " ++ json_file ++ " --http-user-agent " ++
      http_useragent
  let file_options :=
    match excluded_target_file with
    | some f => file_options ++ " --excludefile " ++ f
    | none => file_options
  "masscan " ++ scan_command ++ " " ++ file_options

/-- The `paused.conf` scan of `scan_site`: fold over the lines, and for
each line starting with `output-filename` take `line.split(" = ")[1].strip()`
(the last such line wins); a line starting with `output-filename` but
containing no `" = "` raises an IndexError. -/
def find_output_filename (lines : List String) : Except PyExn (Option String) :=
  lines.foldl
    (fun acc line =>
      match acc with
      | Except.error e => Except.error e
      | Except.ok cur =>
        if pyStartsWith line "output-filename" then
          match ((pySplitOn line " = ").drop 1).head? with
          | some v => Except.ok (some (pyStrip v))
          | none => Except.error PyExn.indexError
        else
          Except.ok cur)
    (Except.ok none)

/-- The masscan branch of `scan_site` (lines 248-297): when `paused.conf`
exists and its `output-filename` value equals this job's JSON output
path, resume; otherwise build a fresh command. -/
def masscan_command_decision (paused_conf : Option (List String))
    (scan_command target_file : String) (excluded_target_file : Option String)
    (json_file http_useragent : String) : Except PyExn String :=
  match paused_conf with
  | none =>
    Except.ok (build_masscan_command scan_command target_file
      excluded_target_file json_file http_useragent)
  | some lines =>
    match find_output_filename lines with
    | Except.error e => Except.error e
    | Except.ok paused_file_output_filename =>
      if paused_file_output_filename = some json_file then
        Except.ok "masscan --resume paused.conf"
      else
        Except.ok (build_masscan_command scan_command target_file
          excluded_target_file json_file http_useragent)

/-- The fresh nmap command of `scan_site` (lines 310-318). -/
def nmap_fresh_command (pending_files_dir result_file_base_name scan_command
    target_file : String) (excluded_target_file : Option String)
    (http_useragent : String) : String :=
  let nmap_results := os_path_join pending_files_dir result_file_base_name
  let file_options :=
    "-iL " ++ target_file ++ " -oA " ++ nmap_results ++
      " --script-args http.useragent=\x27" ++ http_useragent ++ "\x27"
  let file_options :=
    match excluded_target_file with
    | some f => file_options ++ " --excludefile " ++ f
    | none => file_options
  "nmap " ++ scan_command ++ " " ++ file_options

/-- The nmap branch of `scan_site` (lines 299-318): `gnmap` is the size
of `<pending>/<stem>.gnmap` when that file exists; resume when it exists
with size greater than zero, otherwise build a fresh command. -/
def nmap_command_decision (gnmap : Option Nat)
    (pending_files_dir result_file_base_name scan_command target_file : String)
    (excluded_target_file : Option String) (http_useragent : String) : String :=
  let gnmap_file := os_path_join pending_files_dir (result_file_base_name ++ ".gnmap")
  match gnmap with
  | some size =>
    if 0 < size then
      "nmap --resume " ++ gnmap_file
    else
      nmap_fresh_command pending_files_dir result_file_base_name scan_command
        target_file excluded_target_file http_useragent
  | none =>
    nmap_fresh_command pending_files_dir result_file_base_name scan_command
      target_file excluded_target_file http_useragent

/-! ### The supervisor: scan_site -/

/-- Removal of a key from `SCAN_PROCESS_DICT` (`dict.pop`). -/
def dictPop (d : List (Nat × ProcessHandle)) (pid : Nat) :
    List (Nat × ProcessHandle) :=
  d.filter (fun p => p.1 != pid)

/-- Assignment `SCAN_PROCESS_DICT[pid] = process` (overwrites any
existing entry for the key). -/
def dictInsert (d : List (Nat × ProcessHandle)) (pid : Nat)
    (handle : ProcessHandle) : List (Nat × ProcessHandle) :=
  dictPop d pid ++ [(pid, handle)]

/-- The body of `scan_site` inside its outer `try` (lines 157-364).  The
third component is the exception escaping the body, if any; state and
events record what happened before the exception was raised.  The
pause/cancel branch models the unbound local `updated_scan_status`: on
the `KeyError` path (PID absent, logged by the inner handler) and on the
path where the process's argv[0] is not a supported binary, the later
read of that variable raises `unboundLocal`. -/
def scan_site_body (scan_job : ScanJob) (config_data : ConfigData)
    (env : ScanEnv) (st : AgentState) : AgentState × List Event × Option PyExn :=
  let result_file_base_name := scan_job.result_file_base_name
  let target_file :=
    os_path_join config_data.target_files_dir (result_file_base_name ++ ".targets")
  let pending_files_dir := os_path_join config_data.scan_results_dir "pending"
  if scan_job.scan_status = "pause" ∨ scan_job.scan_status = "cancel" then
    match st.scan_process_dict.lookup scan_job.scan_binary_process_id with
    | none =>
      -- KeyError caught and logged; updated_scan_status is then read unbound.
      (st, [], some PyExn.unboundLocal)
    | some process =>
      match process.args with
      | [] => (st, [], some PyExn.indexError)
      | a0 :: _ =>
        if a0 ∈ config_data.supported_scan_binaries then
          let st1 :=
            { st with scan_process_dict :=
                dictPop st.scan_process_dict scan_job.scan_binary_process_id }
          if scan_job.scan_status = "cancel" then
            let moved := move_wildcard_files (result_file_base_name ++ "*")
              st1.pending_files st1.cancelled_files
            let st2 := { st1 with pending_files := moved.1,
                                  cancelled_files := moved.2 }
            let patched := do_patch scan_job (statusUpdate "cancelled")
              env.patch_outcome
            (st2, Event.kill scan_job.scan_binary_process_id :: patched.1,
              patched.2)
          else
            let patched := do_patch scan_job (statusUpdate "paused")
              env.patch_outcome
            (st1, Event.kill scan_job.scan_binary_process_id :: patched.1,
              patched.2)
        else
          -- argv[0] not supported: no kill, no pop; updated_scan_status unbound.
          (st, [], some PyExn.unboundLocal)
  else
    let ev1 : List Event := [Event.filewrite target_file scan_job.targets]
    let excluded_target_file : Option String :=
      if scan_job.excluded_targets = "" then none
      else some (os_path_join config_data.target_files_dir
        (result_file_base_name ++ ".excluded_targets"))
    let ev1 := ev1 ++
      (match excluded_target_file with
       | some p => [Event.filewrite p scan_job.excluded_targets]
       | none => [])
    let commandE : Except PyExn (Option String) :=
      if scan_job.scan_binary = "masscan" then
        let json_file :=
          os_path_join pending_files_dir (result_file_base_name ++ ".json")
        (masscan_command_decision env.paused_conf scan_job.scan_command
          target_file excluded_target_file json_file
          config_data.http_useragent).map some
      else if scan_job.scan_binary = "nmap" then
        Except.ok (some (nmap_command_decision env.gnmap pending_files_dir
          result_file_base_name scan_job.scan_command target_file
          excluded_target_file config_data.http_useragent))
      else
        -- Invalid scan binary: log and return, with no status update.
        Except.ok none
    match commandE with
    | Except.error e => (st, ev1, some e)
    | Except.ok none => (st, ev1, none)
    | Except.ok (some command) =>
      let pid := env.spawn_pid
      let st1 :=
        { st with scan_process_dict :=
            dictInsert st.scan_process_dict pid ⟨pySplit command⟩ }
      let ev2 := ev1 ++ [Event.spawn command pid]
      let started := do_patch scan_job ⟨some "started", some pid, none, none⟩
        env.patch_outcome
      let ev3 := ev2 ++ started.1
      match started.2 with
      | some e => (st1, ev3, some e)
      | none =>
        if env.returncode = 0 then
          let moved := move_wildcard_files (result_file_base_name ++ "*")
            st1.pending_files st1.complete_files
          let st2 := { st1 with pending_files := moved.1,
                                complete_files := moved.2 }
          let completed := do_patch scan_job
            ⟨some "completed", none, some env.now, some result_file_base_name⟩
            env.patch_outcome
          let ev4 := ev3 ++ completed.1
          match completed.2 with
          | some e => (st2, ev4, some e)
          | none =>
            let st3 :=
              { st2 with scan_process_dict := dictPop st2.scan_process_dict pid }
            (st3, ev4, none)
        else
          -- Non-zero exit that is not the result of a control kill:
          -- nothing further happens; the PID is not popped.
          (st1, ev3, none)

/-- `scan_site(scan_job_dict)`: the body wrapped in the outer
`except Exception` handler (lines 366-369), which posts
`scan_status=error`.  The third component is the exception escaping
`scan_site` itself (possible only when that error PATCH raises too; the
`Worker` loop then catches it). -/
def scan_site (scan_job : ScanJob) (config_data : ConfigData) (env : ScanEnv)
    (st : AgentState) : AgentState × List Event × Option PyExn :=
  match scan_site_body scan_job config_data env st with
  | (st1, evs, none) => (st1, evs, none)
  | (st1, evs, some _) =>
    let patched := do_patch scan_job (statusUpdate "error") env.patch_outcome
    (st1, evs ++ patched.1, patched.2)

/-! ### Concrete fixtures used by counterexamples and witnesses -/

/-- A configuration supporting both scanners. -/
def cfg0 : ConfigData := ⟨"ua0", "results", "targets", ["masscan", "nmap"]⟩

/-- The empty agent state. -/
def st0 : AgentState := ⟨[], [], [], []⟩

/-- A benign environment: no checkpoint files, spawn gets PID 4242, clean
exit, every PATCH answered with HTTP 200. -/
def env0 : ScanEnv := ⟨none, none, 4242, 0, .response 200 "", "2025-01-01 00:00:00"⟩

/-- A job naming an unsupported scan binary. -/
def zmapJob : ScanJob := ⟨5, "pending", "site5", "zmap", "-p80", "job5", "10.0.0.1", "", 0⟩

/-- A pause directive targeting PID 999. -/
def pauseJob : ScanJob := ⟨3, "pause", "site3", "masscan", "", "job3", "", "", 999⟩

/-- An ordinary nmap job. -/
def nmapJob : ScanJob := ⟨9, "pending", "site9", "nmap", "-sV", "job9", "10.0.0.1", "", 0⟩

/-- Like `env0` but the spawned process exits with code 1. -/
def envFail : ScanEnv := ⟨none, none, 4242, 1, .response 200 "", "t"⟩

/-- A configuration whose allowlist contains only nmap. -/
def cfgN : ConfigData := ⟨"ua0", "results", "targets", ["nmap"]⟩

/-- A masscan job, for dispatch under `cfgN`. -/
def masscanJobN : ScanJob := ⟨6, "pending", "site6", "masscan", "-p80", "job6", "10.0.0.2", "", 0⟩

/-- A state whose registry holds PID 999 running an unsupported binary. -/
def stZ : AgentState := ⟨[(999, ⟨["zmap", "-p80"]⟩)], [], [], []⟩

/-- A pause directive targeting the PID of `stZ`. -/
def pauseJobZ : ScanJob := ⟨11, "pause", "site11", "masscan", "", "job11", "", "", 999⟩

/-- A JSON parser stub that always succeeds with the empty job list. -/
def parse0 : String → Except PyExn (List ScanJob) := fun _ => Except.ok []

/-! ### Claims -/

/-- C4 counterexample: the claim says `update_scan_information` never
raises into the caller, but an `urlopen` error (transport failure or HTTP
error status) propagates out of the function, which has no `try` of its
own. -/
theorem update_scan_information_raises_counterexample :
    update_scan_information nmapJob (statusUpdate "started") UrlopenOutcome.raises
      = Except.error PyExn.urlopenError := rfl

/-- C4 (amended): `update_scan_information` returns `True` exactly when a
delivered PATCH response has HTTP status 200, but an `urlopen` error is
not caught and raises out of the function into the caller (in `scan_site`
the generic handler then posts `scan_status=error`). -/
theorem update_scan_information_spec (scan_job : ScanJob)
    (update_info : UpdateInfo) (s : Nat) (b : String) :
    ((update_scan_information scan_job update_info (UrlopenOutcome.response s b)
        = Except.ok true) ↔ s = 200) ∧
    update_scan_information scan_job update_info UrlopenOutcome.raises
      = Except.error PyExn.urlopenError := by
  constructor
  · simp [update_scan_information]
  · rfl

/-- C5: `check_for_scan_jobs` returns the parsed job list on HTTP 200;
on a transport error, a non-200 status, or a parse failure it logs and
returns the empty result `None`, the surrounding `except Exception`
absorbing every exception so that no invocation raises into the poll
loop. -/
theorem check_for_scan_jobs_spec (parse : String → Except PyExn (List ScanJob))
    (o : UrlopenOutcome) :
    (∀ b js, o = UrlopenOutcome.response 200 b → parse b = Except.ok js →
      check_for_scan_jobs parse o = some js) ∧
    (o = UrlopenOutcome.raises → check_for_scan_jobs parse o = none) ∧
    (∀ s b, o = UrlopenOutcome.response s b → s ≠ 200 →
      check_for_scan_jobs parse o = none) ∧
    (∀ b e, o = UrlopenOutcome.response 200 b → parse b = Except.error e →
      check_for_scan_jobs parse o = none) := by
  refine ⟨?_, ?_, ?_, ?_⟩
  · rintro b js rfl hp
    simp [check_for_scan_jobs, check_for_scan_jobs_body, hp]
  · rintro rfl
    rfl
  · rintro s b rfl hs
    simp [check_for_scan_jobs, check_for_scan_jobs_body, hs]
  · rintro b e rfl hp
    simp [check_for_scan_jobs, check_for_scan_jobs_body, hp]

/-- C5 witness: the three outcomes of `check_for_scan_jobs_spec` at
concrete inputs. -/
theorem check_for_scan_jobs_spec_witness :
    check_for_scan_jobs parse0 (UrlopenOutcome.response 200 "[]") = some [] ∧
    check_for_scan_jobs parse0 UrlopenOutcome.raises = none ∧
    check_for_scan_jobs parse0 (UrlopenOutcome.response 500 "oops") = none :=
  ⟨(check_for_scan_jobs_spec parse0 (UrlopenOutcome.response 200 "[]")).1 "[]" []
      rfl rfl,
   (check_for_scan_jobs_spec parse0 UrlopenOutcome.raises).2.1 rfl,
   (check_for_scan_jobs_spec parse0 (UrlopenOutcome.response 500 "oops")).2.2.1
      500 "oops" rfl (by decide)⟩

/-- C6 counterexample: when the configuration file is missing,
`load_config` calls `sys.exit(0)`, so the process exit code is 0 - not
non-zero as the claim states. -/
theorem load_config_missing_counterexample :
    processExitCode (load_config false (Except.ok cfg0)) = some 0 := rfl

/-- C6 (amended): when the configuration file is missing the agent logs
and exits with code 0 via `sys.exit(0)`; when the file exists but is
malformed, the `json.loads` exception is uncaught and the interpreter
terminates with the non-zero exit code 1. -/
theorem load_config_exit_spec :
    (∀ (α : Type) (parsed : Except PyExn α),
      load_config false parsed = LoadConfigResult.sysExit 0 ∧
      processExitCode (load_config false parsed) = some 0) ∧
    (∀ (α : Type) (e : PyExn),
      load_config true (Except.error e : Except PyExn α)
          = LoadConfigResult.uncaught e ∧
      processExitCode (load_config true (Except.error e : Except PyExn α))
          = some 1) := by
  exact ⟨fun α parsed => ⟨rfl, rfl⟩, fun α e => ⟨rfl, rfl⟩⟩

/-- C7: when `paused.conf` exists and its `output-filename` value equals
the JSON output path this job would produce, the masscan command is
exactly `masscan --resume paused.conf`, discarding the job's
`scan_command` flags; otherwise (value different or absent, or no
`paused.conf`) a fresh command is built by `build_masscan_command` from
the `scan_command`, the targets file, the JSON output path, the user
agent, and the optional excludefile. -/
theorem masscan_resume_decision_spec (paused_conf : Option (List String))
    (scan_command target_file : String) (excluded_target_file : Option String)
    (json_file http_useragent : String) :
    (paused_conf = none →
      masscan_command_decision paused_conf scan_command target_file
          excluded_target_file json_file http_useragent =
        Except.ok (build_masscan_command scan_command target_file
          excluded_target_file json_file http_useragent)) ∧
    (∀ lines v, paused_conf = some lines →
      find_output_filename lines = Except.ok v →
      masscan_command_decision paused_conf scan_command target_file
          excluded_target_file json_file http_useragent =
        Except.ok (if v = some json_file then "masscan --resume paused.conf"
          else build_masscan_command scan_command target_file
            excluded_target_file json_file http_useragent)) := by
  constructor
  · rintro rfl
    rfl
  · rintro lines v rfl hv
    simp only [masscan_command_decision, hv]
    split <;> rfl

set_option maxRecDepth 8000 in
/-- C7 witness: a matching `paused.conf` yields the resume command. -/
theorem masscan_resume_decision_spec_witness :
    masscan_command_decision
        (some ["output-filename = results/pending/job7.json"])
        "-p80 --rate 1000" "targets/job7.targets" none
        "results/pending/job7.json" "ua0"
      = Except.ok "masscan --resume paused.conf" := by
  have h := (masscan_resume_decision_spec
    (some ["output-filename = results/pending/job7.json"]) "-p80 --rate 1000"
    "targets/job7.targets" none "results/pending/job7.json" "ua0").2
    ["output-filename = results/pending/job7.json"]
    (some "results/pending/job7.json") rfl rfl
  simpa using h

/-- C9: for an nmap job, when `<pending>/<stem>.gnmap` exists with size
greater than zero the command resumes from it, otherwise a fresh nmap
command is built; and the decision, a pure function of the on-disk state,
is the same on repeated evaluation. -/
theorem nmap_resume_decision_spec (gnmap : Option Nat)
    (pending_files_dir result_file_base_name scan_command target_file : String)
    (excluded_target_file : Option String) (http_useragent : String) :
    (∀ size, gnmap = some size → 0 < size →
      nmap_command_decision gnmap pending_files_dir result_file_base_name
          scan_command target_file excluded_target_file http_useragent =
        "nmap --resume " ++
          os_path_join pending_files_dir (result_file_base_name ++ ".gnmap")) ∧
    ((gnmap = none ∨ gnmap = some 0) →
      nmap_command_decision gnmap pending_files_dir result_file_base_name
          scan_command target_file excluded_target_file http_useragent =
        nmap_fresh_command pending_files_dir result_file_base_name scan_command
          target_file excluded_target_file http_useragent) ∧
    nmap_command_decision gnmap pending_files_dir result_file_base_name
        scan_command target_file excluded_target_file http_useragent =
      nmap_command_decision gnmap pending_files_dir result_file_base_name
        scan_command target_file excluded_target_file http_useragent := by
  refine ⟨?_, ?_, rfl⟩
  · rintro size rfl hpos
    simp [nmap_command_decision, hpos]
  · rintro (rfl | rfl)
    · rfl
    · simp [nmap_command_decision]

/-- C9 witness: a non-empty gnmap file at a concrete path yields the
resume command. -/
theorem nmap_resume_decision_spec_witness :
    nmap_command_decision (some 5) "results/pending" "job9" "-sV"
        "targets/job9.targets" none "ua0"
      = "nmap --resume " ++ os_path_join "results/pending" ("job9" ++ ".gnmap") :=
  (nmap_resume_decision_spec (some 5) "results/pending" "job9" "-sV"
    "targets/job9.targets" none "ua0").1 5 rfl (by decide)

/-- The source listing after `move_wildcard_files_aux` is exactly the
non-matching part of the original listing. -/
theorem move_aux_fst (pat : String) (src : List String) :
    ∀ dst, (move_wildcard_files_aux pat src dst).1 =
      src.filter (fun f => !(fnmatch f pat)) := by
  induction src with
  | nil => intro dst; rfl
  | cons f rest ih =>
    intro dst
    cases hf : fnmatch f pat with
    | true => simp [move_wildcard_files_aux, hf, ih]
    | false => simp [move_wildcard_files_aux, hf, ih]

/-- Names not in the processed listing keep their multiplicity in the
destination. -/
theorem move_aux_count_of_not_mem (pat f : String) (src : List String) :
    ∀ dst, f ∉ src →
      ((move_wildcard_files_aux pat src dst).2.count f) = dst.count f := by
  induction src with
  | nil => intro dst _; rfl
  | cons g rest ih =>
    intro dst hmem
    have hg : g ≠ f := fun h => hmem (h ▸ List.mem_cons_self g rest)
    have hrest : f ∉ rest := fun h => hmem (List.mem_cons_of_mem g h)
    cases hgm : fnmatch g pat with
    | false => simp only [move_wildcard_files_aux, hgm, Bool.false_eq_true,
        if_false]; exact ih dst hrest
    | true =>
      simp only [move_wildcard_files_aux, hgm, if_true]
      rw [ih _ hrest, List.count_append,
        List.count_filter (by simpa [bne_iff_ne] using Ne.symm hg),
        List.count_singleton]
      simp [hg]

/-- A matching name from a duplicate-free source listing appears exactly
once in the destination after the moves (a collision was overwritten). -/
theorem move_aux_count_one (pat f : String) (src : List String) :
    ∀ dst, src.Nodup → f ∈ src → fnmatch f pat = true →
      ((move_wildcard_files_aux pat src dst).2.count f) = 1 := by
  induction src with
  | nil => intro dst _ h _; exact absurd h (List.not_mem_nil f)
  | cons g rest ih =>
    intro dst hnd hmem hf
    rcases List.mem_cons.mp hmem with rfl | hmem'
    · have hrest : f ∉ rest := (List.nodup_cons.mp hnd).1
      simp only [move_wildcard_files_aux, hf, if_true]
      rw [move_aux_count_of_not_mem pat f rest _ hrest, List.count_append]
      have h0 : List.count f (dst.filter (fun x => x != f)) = 0 := by
        rw [List.count_eq_zero]
        intro hmemf
        have hx := List.of_mem_filter hmemf
        simp at hx
      simp [h0]
    · have hg : g ≠ f := by
        rintro rfl; exact (List.nodup_cons.mp hnd).1 hmem'
      have hnd' := (List.nodup_cons.mp hnd).2
      cases hgm : fnmatch g pat with
      | false => simp only [move_wildcard_files_aux, hgm, Bool.false_eq_true,
          if_false]; exact ih _ hnd' hmem' hf
      | true =>
        simp only [move_wildcard_files_aux, hgm, if_true]
        exact ih _ hnd' hmem' hf

/-- C8 counterexample: `fnmatch` honors bracket classes, not only `*` and
`?`: the pattern `[a]` matches the file name `a` and
`move_wildcard_files` moves that file, while a matcher honoring exactly
`*` and `?` (with `[` a literal) rejects it. -/
theorem move_wildcard_files_bracket_counterexample :
    fnmatch "a" "[a]" = true ∧ star_question_match "a" "[a]" = false ∧
    move_wildcard_files "[a]" ["a"] [] = ([], ["a"]) := by
  refine ⟨rfl, rfl, rfl⟩

/-- C8 (amended): `move_wildcard_files` moves exactly the files of the
source directory whose names `fnmatch` the pattern - semantics honoring
`*`, `?` and bracket classes `[seq]` - with per-file moves in which a
name collision at the destination overwrites the existing file. -/
theorem move_wildcard_files_spec :
    (∀ pat src dst, (move_wildcard_files pat src dst).1 =
      src.filter (fun f => !(fnmatch f pat))) ∧
    (∀ pat src dst f, src.Nodup → f ∈ src → fnmatch f pat = true →
      ((move_wildcard_files pat src dst).2.count f) = 1) ∧
    fnmatch "abc" "a*" = true ∧ fnmatch "abc" "a?c" = true ∧
    fnmatch "abd" "a?c" = false ∧ fnmatch "a" "[a]" = true ∧
    fnmatch "b" "[ac]" = false := by
  refine ⟨?_, ?_, rfl, rfl, rfl, rfl, rfl⟩
  · intro pat src dst
    exact move_aux_fst pat src dst
  · intro pat src dst f hnd hmem hf
    exact move_aux_count_one pat f src dst hnd hmem hf

/-- C8 witness: moving `job7*` out of a two-file pending directory leaves
exactly one `job7.json` in the destination. -/
theorem move_wildcard_files_spec_witness :
    List.Nodup ["job7.json", "other.txt"] ∧
    ((move_wildcard_files "job7*" ["job7.json", "other.txt"]
        ["job7.json"]).2.count "job7.json") = 1 :=
  ⟨by decide,
   move_wildcard_files_spec.2.1 "job7*" ["job7.json", "other.txt"]
     ["job7.json"] "job7.json" (by decide) (by decide) (by decide)⟩

/-- A fresh insertion into the PID registry is found by lookup. -/
theorem lookup_dictInsert (d : List (Nat × ProcessHandle)) (pid : Nat)
    (handle : ProcessHandle) :
    (dictInsert d pid handle).lookup pid = some handle := by
  induction d with
  | nil => simp [dictInsert, dictPop, List.lookup]
  | cons q d ih =>
    by_cases hq : q.1 = pid
    · simpa [dictInsert, dictPop, List.filter_cons, hq] using ih
    · have hb : (q.1 != pid) = true := by simp [bne_iff_ne, hq]
      simp only [dictInsert, dictPop, List.filter_cons, hb, if_true,
        List.cons_append, List.lookup]
      have hb2 : (pid == q.1) = false := by
        simp [beq_eq_false_iff_ne]
        exact fun h => hq h.symm
      simp only [hb2]
      exact ih

/-- C1 counterexample: a job naming the unsupported binary `zmap` makes
`scan_site` log and return after writing the targets file - no
`scan_status=error` PATCH is posted, contrary to the claim; and the
branch tests the literal names `masscan`/`nmap`, not the configured
allowlist: a masscan job under an allowlist of only `nmap` still spawns
a process. -/
theorem invalid_binary_counterexample :
    (scan_site zmapJob cfg0 env0 st0).2.1 =
      [Event.filewrite "targets/job5.targets" "10.0.0.1"] ∧
    Event.spawn
        "masscan -p80 -iL targets/job6.targets -oJ results/pending/job6.json --http-user-agent ua0"
        4242 ∈ (scan_site masscanJobN cfgN env0 st0).2.1 := by
  refine ⟨rfl, ?_⟩
  decide

/-- C1 (amended): for every dispatched job that is not a pause/cancel
directive and whose `scan_binary` is neither `masscan` nor `nmap`,
`scan_site` logs the invalid binary and returns without spawning any
process and without posting any status update; the agent state is
unchanged. -/
theorem invalid_binary_spec (scan_job : ScanJob) (config_data : ConfigData)
    (env : ScanEnv) (st : AgentState)
    (h1 : scan_job.scan_status ≠ "pause") (h2 : scan_job.scan_status ≠ "cancel")
    (h3 : scan_job.scan_binary ≠ "masscan") (h4 : scan_job.scan_binary ≠ "nmap") :
    (scan_site scan_job config_data env st).1 = st ∧
    (scan_site scan_job config_data env st).2.2 = none ∧
    ∀ e ∈ (scan_site scan_job config_data env st).2.1,
      (∀ c p, e ≠ Event.spawn c p) ∧ (∀ i u, e ≠ Event.patch i u) := by
  have hcond : ¬(scan_job.scan_status = "pause" ∨ scan_job.scan_status = "cancel") := by
    rintro (h | h)
    · exact h1 h
    · exact h2 h
  by_cases he : scan_job.excluded_targets = ""
  · refine ⟨?_, ?_, ?_⟩
    · simp only [scan_site, scan_site_body, if_neg hcond, if_neg h3, if_neg h4,
        if_pos he]
    · simp only [scan_site, scan_site_body, if_neg hcond, if_neg h3, if_neg h4,
        if_pos he]
    · intro e hee
      simp only [scan_site, scan_site_body, if_neg hcond, if_neg h3, if_neg h4,
        if_pos he, List.append_nil, List.mem_singleton] at hee
      subst hee
      refine ⟨fun c p h => ?_, fun i u h => ?_⟩ <;> cases h
  · refine ⟨?_, ?_, ?_⟩
    · simp only [scan_site, scan_site_body, if_neg hcond, if_neg h3, if_neg h4,
        if_neg he]
    · simp only [scan_site, scan_site_body, if_neg hcond, if_neg h3, if_neg h4,
        if_neg he]
    · intro e hee
      simp only [scan_site, scan_site_body, if_neg hcond, if_neg h3, if_neg h4,
        if_neg he, List.mem_append, List.mem_singleton, List.cons_append,
        List.nil_append, List.mem_cons, List.not_mem_nil, or_false] at hee
      rcases hee with hee | hee <;> subst hee <;>
        refine ⟨fun c p h => ?_, fun i u h => ?_⟩ <;> cases h

/-- C1 witness: the amended theorem applied to the concrete `zmap` job. -/
theorem invalid_binary_spec_witness :
    (scan_site zmapJob cfg0 env0 st0).1 = st0 ∧
    (scan_site zmapJob cfg0 env0 st0).2.2 = none :=
  ⟨(invalid_binary_spec zmapJob cfg0 env0 st0 (by decide) (by decide)
      (by decide) (by decide)).1,
   (invalid_binary_spec zmapJob cfg0 env0 st0 (by decide) (by decide)
      (by decide) (by decide)).2.1⟩

/-- C2: a pause directive whose PID is absent from the registry takes the
`KeyError` path, after which the read of the never-assigned
`updated_scan_status` raises `UnboundLocalError`; the generic handler
then posts `scan_status=error` - the code does post a status update at
the claim's failing input, where the claim (and the spec's intent) says
none is posted. -/
theorem pause_unknown_pid_posts_error :
    scan_site pauseJob cfg0 env0 st0 =
      (st0, [Event.patch 3 (statusUpdate "error")], none) := rfl

/-- C3 counterexample: after a non-zero exit that is not the result of a
control kill, the child's PID 4242 is still present in the registry -
`SCAN_PROCESS_DICT.pop` sits inside the `returncode == 0` block - so the
claim that the PID is removed fails. -/
theorem nonzero_exit_counterexample :
    envFail.returncode ≠ 0 ∧
    ((scan_site nmapJob cfg0 envFail st0).1.scan_process_dict.lookup
        4242).isSome = true := by
  refine ⟨by decide, rfl⟩

/-- C3 (amended): for every supervised scan whose child exits non-zero
(absent a control kill), the child's PID remains in the PID registry (it
is removed only on exit code 0 or by the control handler), the job's
files remain in the pending directory, and no status update beyond the
initial `started` one is posted. -/
theorem nonzero_exit_spec (scan_job : ScanJob) (config_data : ConfigData)
    (env : ScanEnv) (st : AgentState) (s : Nat) (b : String)
    (h1 : scan_job.scan_status ≠ "pause") (h2 : scan_job.scan_status ≠ "cancel")
    (h3 : scan_job.scan_binary = "masscan" ∨ scan_job.scan_binary = "nmap")
    (h4 : env.paused_conf = none)
    (h5 : env.patch_outcome = UrlopenOutcome.response s b)
    (h6 : env.returncode ≠ 0) :
    ((scan_site scan_job config_data env st).1.scan_process_dict.lookup
        env.spawn_pid).isSome = true ∧
    (scan_site scan_job config_data env st).1.pending_files = st.pending_files ∧
    (∀ u, Event.patch scan_job.id u ∈ (scan_site scan_job config_data env st).2.1 →
      u = ⟨some "started", some env.spawn_pid, none, none⟩) ∧
    (scan_site scan_job config_data env st).2.2 = none := by
  have hcond : ¬(scan_job.scan_status = "pause" ∨ scan_job.scan_status = "cancel") := by
    rintro (h | h)
    · exact h1 h
    · exact h2 h
  rcases h3 with hb | hb
  · refine ⟨?_, ?_, ?_, ?_⟩
    · simp only [scan_site, scan_site_body, if_neg hcond, if_pos hb, h4,
        masscan_command_decision, Except.map, do_patch, update_scan_information,
        h5, if_neg h6]
      rw [lookup_dictInsert]
      rfl
    · simp only [scan_site, scan_site_body, if_neg hcond, if_pos hb, h4,
        masscan_command_decision, Except.map, do_patch, update_scan_information,
        h5, if_neg h6]
    · intro u hu
      by_cases he : scan_job.excluded_targets = "" <;>
        simp [scan_site, scan_site_body, if_neg hcond, if_pos hb, h4,
          masscan_command_decision, Except.map, do_patch, update_scan_information,
          h5, if_neg h6, he] at hu <;>
        exact hu
    · simp only [scan_site, scan_site_body, if_neg hcond, if_pos hb, h4,
        masscan_command_decision, Except.map, do_patch, update_scan_information,
        h5, if_neg h6]
  · have hb' : ¬scan_job.scan_binary = "masscan" := by simp [hb]
    refine ⟨?_, ?_, ?_, ?_⟩
    · simp only [scan_site, scan_site_body, if_neg hcond, if_neg hb', if_pos hb,
        do_patch, update_scan_information, h5, if_neg h6]
      rw [lookup_dictInsert]
      rfl
    · simp only [scan_site, scan_site_body, if_neg hcond, if_neg hb', if_pos hb,
        do_patch, update_scan_information, h5, if_neg h6]
    · intro u hu
      by_cases he : scan_job.excluded_targets = "" <;>
        simp [scan_site, scan_site_body, if_neg hcond, if_neg hb', if_pos hb,
          do_patch, update_scan_information, h5, if_neg h6, he] at hu <;>
        exact hu
    · simp only [scan_site, scan_site_body, if_neg hcond, if_neg hb', if_pos hb,
        do_patch, update_scan_information, h5, if_neg h6]

/-- C3 witness: the amended theorem at the concrete failing nmap run. -/
theorem nonzero_exit_spec_witness :
    ((scan_site nmapJob cfg0 envFail st0).1.scan_process_dict.lookup
        4242).isSome = true ∧
    (scan_site nmapJob cfg0 envFail st0).1.pending_files = st0.pending_files :=
  ⟨(nonzero_exit_spec nmapJob cfg0 envFail st0 200 "" (by decide) (by decide)
      (Or.inr rfl) rfl rfl (by decide)).1,
   (nonzero_exit_spec nmapJob cfg0 envFail st0 200 "" (by decide) (by decide)
      (Or.inr rfl) rfl rfl (by decide)).2.1⟩

/-- C10: a pause/cancel directive whose target PID is registered but
whose process argv[0] is not in `supported_scan_binaries` kills nothing,
leaves the registry and the rest of the state unchanged, and - because
`updated_scan_status` is never bound on that path - the generic exception
handler posts `scan_status=error` instead of pausing or cancelling. -/
theorem directive_unsupported_argv_spec (scan_job : ScanJob)
    (config_data : ConfigData) (env : ScanEnv) (st : AgentState)
    (process : ProcessHandle) (a0 : String) (rest : List String)
    (s : Nat) (b : String)
    (h1 : scan_job.scan_status = "pause" ∨ scan_job.scan_status = "cancel")
    (h2 : st.scan_process_dict.lookup scan_job.scan_binary_process_id
        = some process)
    (h3 : process.args = a0 :: rest)
    (h4 : a0 ∉ config_data.supported_scan_binaries)
    (h5 : env.patch_outcome = UrlopenOutcome.response s b) :
    scan_site scan_job config_data env st =
      (st, [Event.patch scan_job.id (statusUpdate "error")], none) := by
  simp only [scan_site, scan_site_body, if_pos h1, h2, h3, if_neg h4, h5,
    do_patch, update_scan_information, statusUpdate, List.nil_append]

/-- C10 witness: the theorem at a registry holding PID 999 running the
unsupported binary `zmap`. -/
theorem directive_unsupported_argv_spec_witness :
    scan_site pauseJobZ cfg0 env0 stZ =
      (stZ, [Event.patch 11 (statusUpdate "error")], none) :=
  directive_unsupported_argv_spec pauseJobZ cfg0 env0 stZ ⟨["zmap", "-p80"]⟩
    "zmap" ["-p80"] 200 "" (Or.inl rfl) rfl rfl (by decide) rfl

end Scantron
